import Mathlib

/-!
Verification development for `src/lb5.cpp`, a document-processing demo built
from three design patterns: Strategy (`DocumentProcessor` with a replaceable
`ProcessingStrategy`), Chain of Responsibility (`FormatChecker` and
`SecurityChecker` linked through a `next` pointer), and Visitor
(`PDFDocument` / `TXTDocument` accepting a `Visitor` over a
`DocumentStructure`).

Modelling conventions:
* console output becomes an explicit list of the lines printed;
* the mutable `next` pointer of a handler becomes a `List HandlerKind`
  (the empty list is the null pointer), and `handle` additionally returns
  the chain as it stands after the call together with the ordered trace of
  the handlers whose `handle` method ran;
* the nullable `unique_ptr<ProcessingStrategy>` slot becomes an
  `Option StrategyKind`, and `executeStrategy` additionally reports which
  strategy object, if any, was invoked;
* the visitor becomes a structure holding the line each overload prints,
  and `accept` returns the overload that the double dispatch selected
  together with that line.
-/

/-- The two concrete `ProcessingStrategy` subclasses of the source
(`PrintStrategy`, `SaveStrategy`). -/
inductive StrategyKind
  | printStrategy
  | saveStrategy
deriving DecidableEq

/-- `ProcessingStrategy::process(docType)`: each concrete strategy prints one
line built from the document type. The returned list holds the printed
lines. -/
def ProcessingStrategy.process : StrategyKind → String → List String
  | .printStrategy, docType => ["[Strategy] Printing " ++ docType ++ " document...\n"]
  | .saveStrategy, docType => ["[Strategy] Saving " ++ docType ++ " document...\n"]

/-- The Strategy context: holds `std::unique_ptr<ProcessingStrategy> strategy`,
a nullable single slot, modelled as an `Option`. -/
structure DocumentProcessor where
  strategy : Option StrategyKind
deriving DecidableEq

/-- A default-constructed `DocumentProcessor`: the `unique_ptr` member is
value-initialized to null. -/
def DocumentProcessor.new : DocumentProcessor := ⟨none⟩

/-- `DocumentProcessor::setStrategy(s)`: `strategy = std::move(s)` overwrites
the slot with the argument, discarding whatever was there. -/
def DocumentProcessor.setStrategy (p : DocumentProcessor) (s : Option StrategyKind) :
    DocumentProcessor :=
  { p with strategy := s }

/-- `DocumentProcessor::executeStrategy(docType)`:
`if (strategy) strategy->process(docType); else` print the no-strategy
notice. The first component records which strategy object was invoked
(`none` when the null check failed), the second the printed lines. -/
def DocumentProcessor.executeStrategy (p : DocumentProcessor) (docType : String) :
    Option StrategyKind × List String :=
  match p.strategy with
  | some s => (some s, ProcessingStrategy.process s docType)
  | none => (none, ["No strategy selected.\n"])

/-- The two concrete `Handler` subclasses of the source. -/
inductive HandlerKind
  | formatChecker
  | securityChecker
deriving DecidableEq

/-- Everything observable about one `handle` call: the returned bool, the
successor chain as it stands after the call (`nextOut`), the ordered list of
handlers whose `handle` ran (`trace`), and the printed lines (`output`). -/
structure HandleResult where
  result : Bool
  nextOut : List HandlerKind
  trace : List HandlerKind
  output : List String
deriving DecidableEq

/-- The format test of `FormatChecker::handle`:
`docType == "PDF" || docType == "TXT" || docType == "DOCX"`
(exact `std::string` equality). -/
def recognizedFormat (docType : String) : Bool :=
  docType == "PDF" || docType == "TXT" || docType == "DOCX"

/-- `handle(docType)` of a handler node given its successor chain.
`FormatChecker`: prints the checking line; when the format test passes it
delegates to `next` when non-null and otherwise returns `true`; when the
test fails it prints the unsupported line and returns `false` without
delegating. `SecurityChecker`: prints the passed line, then delegates to
`next` when non-null and otherwise returns `true`. No branch assigns to any
`next` pointer, so the returned chain is rebuilt from the same nodes. -/
def Handler.handle : HandlerKind → List HandlerKind → String → HandleResult
  | .formatChecker, [], docType =>
    if recognizedFormat docType then
      ⟨true, [], [.formatChecker],
        ["[Chain] Checking format of " ++ docType ++ "...\n"]⟩
    else
      ⟨false, [], [.formatChecker],
        ["[Chain] Checking format of " ++ docType ++ "...\n",
         "Format not supported.\n"]⟩
  | .formatChecker, k :: rest, docType =>
    if recognizedFormat docType then
      ⟨(Handler.handle k rest docType).result,
       k :: (Handler.handle k rest docType).nextOut,
       .formatChecker :: (Handler.handle k rest docType).trace,
       ("[Chain] Checking format of " ++ docType ++ "...\n") ::
         (Handler.handle k rest docType).output⟩
    else
      ⟨false, k :: rest, [.formatChecker],
        ["[Chain] Checking format of " ++ docType ++ "...\n",
         "Format not supported.\n"]⟩
  | .securityChecker, [], docType =>
    ⟨true, [], [.securityChecker],
      ["[Chain] Security check passed for " ++ docType ++ ".\n"]⟩
  | .securityChecker, k :: rest, docType =>
    ⟨(Handler.handle k rest docType).result,
     k :: (Handler.handle k rest docType).nextOut,
     .securityChecker :: (Handler.handle k rest docType).trace,
     ("[Chain] Security check passed for " ++ docType ++ ".\n") ::
       (Handler.handle k rest docType).output⟩

/-- The two concrete `Document` subclasses (`PDFDocument`, `TXTDocument`). -/
inductive Document
  | pdf
  | txt
deriving DecidableEq

/-- `Document::getType()`. -/
def Document.getType : Document → String
  | .pdf => "PDF"
  | .txt => "TXT"

/-- Which `Visitor::visit` overload a dispatch selected. -/
inductive VisitCall
  | visitPDF
  | visitTXT
deriving DecidableEq

/-- A `Visitor` implementation: the line printed by each overload. -/
structure Visitor where
  visitPDF : String
  visitTXT : String
deriving DecidableEq

/-- The concrete `DisplayVisitor`. -/
def DisplayVisitor : Visitor :=
  ⟨"[Visitor] Displaying PDF content.\n", "[Visitor] Displaying TXT content.\n"⟩

/-- `Document::accept(v)`: each concrete document calls `v.visit(*this)`, so
the dynamic type of the document selects the overload. Returns the selected
overload and the line it prints. -/
def Document.accept : Document → Visitor → VisitCall × String
  | .pdf, v => (VisitCall.visitPDF, v.visitPDF)
  | .txt, v => (VisitCall.visitTXT, v.visitTXT)

/-- The object structure: `std::vector<std::unique_ptr<Document>> docs`. -/
structure DocumentStructure where
  docs : List Document
deriving DecidableEq

/-- A default-constructed `DocumentStructure` with an empty vector. -/
def DocumentStructure.new : DocumentStructure := ⟨[]⟩

/-- `DocumentStructure::add(doc)`: `docs.push_back(std::move(doc))`. -/
def DocumentStructure.add (s : DocumentStructure) (d : Document) : DocumentStructure :=
  ⟨s.docs ++ [d]⟩

/-- The loop body of `DocumentStructure::process`: visit each document in
vector order, accumulating one dispatch per document. -/
def processLoop (v : Visitor) : List Document → List (VisitCall × String)
  | [] => []
  | d :: rest => Document.accept d v :: processLoop v rest

/-- `DocumentStructure::process(v)`: `for (auto& doc : docs) doc->accept(v);`.
Returns the ordered trace of visits and the structure after the loop; no
iteration writes to `docs`, so the post-state carries the same vector. -/
def DocumentStructure.process (s : DocumentStructure) (v : Visitor) :
    List (VisitCall × String) × DocumentStructure :=
  (processLoop v s.docs, s)

/-- `DocumentStructure::getAll()`: builds a vector of the raw pointers,
pushing one per document in vector order. -/
def DocumentStructure.getAll (s : DocumentStructure) : List Document :=
  s.docs.foldl (fun result d => result ++ [d]) []

/-! ## Helper lemmas -/

/-- When the format test passes, every chain of the two handler kinds
returns `true`. -/
theorem handle_result_of_recognized (docType : String)
    (h : recognizedFormat docType = true) :
    ∀ (next : List HandlerKind) (k : HandlerKind),
      (Handler.handle k next docType).result = true := by
  intro next
  induction next with
  | nil => intro k; cases k <;> simp [Handler.handle, h]
  | cons k' rest ih => intro k; cases k <;> simp [Handler.handle, h, ih k']

/-- `handle` reconstructs its successor chain unchanged. -/
theorem handle_nextOut_eq (docType : String) :
    ∀ (next : List HandlerKind) (k : HandlerKind),
      (Handler.handle k next docType).nextOut = next := by
  intro next
  induction next with
  | nil =>
    intro k
    cases k
    · simp only [Handler.handle]
      split <;> rfl
    · rfl
  | cons k' rest ih =>
    intro k
    cases k
    · simp only [Handler.handle]
      split
      · simp [ih k']
      · rfl
    · simp [Handler.handle, ih k']

/-- Folding `setStrategy` over a call list ending in `s` leaves exactly `s`
in the slot. -/
theorem foldl_setStrategy_append (p : DocumentProcessor)
    (ss : List (Option StrategyKind)) (s : Option StrategyKind) :
    List.foldl DocumentProcessor.setStrategy p (ss ++ [s]) =
      DocumentProcessor.mk s := by
  induction ss generalizing p with
  | nil => rfl
  | cons a rest ih => exact ih (p.setStrategy a)

/-- Folding `add` appends the inserted documents to the vector in order. -/
theorem foldl_add_docs (l : List Document) :
    ∀ (s : DocumentStructure),
      (List.foldl DocumentStructure.add s l).docs = s.docs ++ l := by
  induction l with
  | nil => intro s; simp
  | cons d rest ih =>
    intro s
    simpa [DocumentStructure.add] using ih (s.add d)

/-- `getAll` lists exactly the documents of the vector, in order. -/
theorem getAll_eq_docs (s : DocumentStructure) : s.getAll = s.docs := by
  have key : ∀ (l acc : List Document),
      List.foldl (fun result d => result ++ [d]) acc l = acc ++ l := by
    intro l
    induction l with
    | nil => intro acc; simp
    | cons d rest ih => intro acc; simp [List.foldl, ih]
  simpa [DocumentStructure.getAll] using key s.docs []

/-- The process loop performs exactly one dispatch per document, in order. -/
theorem processLoop_eq_map (v : Visitor) (ds : List Document) :
    processLoop v ds = ds.map (fun d => Document.accept d v) := by
  induction ds with
  | nil => rfl
  | cons d rest ih => simp [processLoop, ih]

/-! ## Claims -/

/-- Claim C1: running the chain `FormatChecker` linked to `SecurityChecker`
on a document-type string returns `true` exactly when the string equals
`"PDF"`, `"TXT"` or `"DOCX"`, and returns `false` on every other string. -/
theorem chain_accepts_iff_recognized (t : String) :
    (Handler.handle .formatChecker [.securityChecker] t).result = true ↔
      (t = "PDF" ∨ t = "TXT" ∨ t = "DOCX") := by
  by_cases h1 : t = "PDF" <;> by_cases h2 : t = "TXT" <;> by_cases h3 : t = "DOCX" <;>
    simp [Handler.handle, recognizedFormat, h1, h2, h3]

/-- Claim C2: when `FormatChecker::handle` linked to `SecurityChecker`
returns `false`, the only handler that ran is `FormatChecker`; in particular
`SecurityChecker::handle` was never invoked. -/
theorem formatChecker_false_blocks_security (t : String)
    (h : (Handler.handle .formatChecker [.securityChecker] t).result = false) :
    (Handler.handle .formatChecker [.securityChecker] t).trace =
        [HandlerKind.formatChecker] ∧
      HandlerKind.securityChecker ∉
        (Handler.handle .formatChecker [.securityChecker] t).trace := by
  by_cases hr : recognizedFormat t = true
  · have htrue := handle_result_of_recognized t hr [.securityChecker] .formatChecker
    rw [htrue] at h
    exact absurd h (by simp)
  · constructor <;> simp [Handler.handle, hr]

/-- Witness for C2 at the concrete rejected input `"XML"`. -/
theorem formatChecker_false_blocks_security_witness :
    (Handler.handle .formatChecker [.securityChecker] "XML").result = false ∧
      ((Handler.handle .formatChecker [.securityChecker] "XML").trace =
          [HandlerKind.formatChecker] ∧
        HandlerKind.securityChecker ∉
          (Handler.handle .formatChecker [.securityChecker] "XML").trace) :=
  ⟨by decide, formatChecker_false_blocks_security "XML" (by decide)⟩

/-- Claim C3: `process` dispatches the visitor exactly once per member in
insertion order, the overload chosen by each member's concrete variant; on
`[PDF, TXT]` it selects the PDF overload then the TXT overload, once each,
and on the empty collection it performs no dispatch. -/
theorem process_visits_once_in_order (v : Visitor) (ds : List Document) :
    (DocumentStructure.process ⟨ds⟩ v).1 = ds.map (fun d => Document.accept d v) ∧
      (DocumentStructure.process ⟨[Document.pdf, Document.txt]⟩ v).1 =
        [(VisitCall.visitPDF, v.visitPDF), (VisitCall.visitTXT, v.visitTXT)] ∧
      (DocumentStructure.process ⟨[]⟩ v).1 = [] :=
  ⟨processLoop_eq_map v ds, rfl, rfl⟩

/-- Claim C4: after any sequence of `setStrategy` calls, `executeStrategy`
behaves exactly as after the last call alone (last-write-wins), and when the
last call installed strategy `k` it invokes precisely the behavior of `k`. -/
theorem setStrategy_last_write_wins (p : DocumentProcessor)
    (ss : List (Option StrategyKind)) (s : Option StrategyKind) (t : String) :
    DocumentProcessor.executeStrategy
        (List.foldl DocumentProcessor.setStrategy p (ss ++ [s])) t =
      DocumentProcessor.executeStrategy (DocumentProcessor.setStrategy p s) t ∧
    ∀ k : StrategyKind,
      DocumentProcessor.executeStrategy
          (List.foldl DocumentProcessor.setStrategy p (ss ++ [some k])) t =
        (some k, ProcessingStrategy.process k t) := by
  constructor
  · rw [foldl_setStrategy_append]
    rfl
  · intro k
    rw [foldl_setStrategy_append]
    rfl

/-- Claim C5: with no strategy set, `executeStrategy` is a normal total
outcome that prints the no-strategy notice and invokes no strategy. -/
theorem executeStrategy_none_is_notice (t : String) :
    DocumentProcessor.executeStrategy ⟨none⟩ t =
        (none, ["No strategy selected.\n"]) ∧
      ∀ k : StrategyKind, (DocumentProcessor.executeStrategy ⟨none⟩ t).1 ≠ some k := by
  refine ⟨rfl, fun k hk => ?_⟩
  simp [DocumentProcessor.executeStrategy] at hk

/-- Claim C6: `SecurityChecker::handle` always passes: with no successor it
returns `true`, and with a successor it returns exactly the successor's
result; it never contributes a `false` of its own. -/
theorem securityChecker_always_passes (t : String) :
    (Handler.handle .securityChecker [] t).result = true ∧
      ∀ (k : HandlerKind) (rest : List HandlerKind),
        (Handler.handle .securityChecker (k :: rest) t).result =
          (Handler.handle k rest t).result :=
  ⟨rfl, fun _ _ => rfl⟩

/-- Claim C7: a collection built by inserting the documents `ds` answers
`getAll` with exactly those documents, one per insertion, in insertion
order. -/
theorem getAll_returns_inserted_in_order (ds : List Document) :
    (List.foldl DocumentStructure.add DocumentStructure.new ds).getAll = ds ∧
      (List.foldl DocumentStructure.add DocumentStructure.new ds).getAll.length =
        ds.length := by
  have h : (List.foldl DocumentStructure.add DocumentStructure.new ds).getAll = ds := by
    rw [getAll_eq_docs, foldl_add_docs]
    rfl
  exact ⟨h, by rw [h]⟩

/-- Claim C8: `process` leaves the collection unchanged: the post-state
equals the pre-state, a repeated `process` yields the identical visit
sequence, and `getAll` answers the same before and after. -/
theorem process_preserves_structure (s : DocumentStructure) (v : Visitor) :
    (s.process v).2 = s ∧
      ((s.process v).2.process v).1 = (s.process v).1 ∧
      (s.process v).2.getAll = s.getAll :=
  ⟨rfl, rfl, rfl⟩

/-- Claim C9: a freshly constructed `DocumentProcessor` holds no strategy,
and `executeStrategy` before any `setStrategy` takes the no-strategy branch,
invoking no strategy behavior. -/
theorem new_processor_takes_no_strategy_branch (t : String) :
    DocumentProcessor.new.strategy = none ∧
      DocumentProcessor.executeStrategy DocumentProcessor.new t =
        (none, ["No strategy selected.\n"]) :=
  ⟨rfl, rfl⟩

/-- Claim C10: `handle` never modifies the chain structure, and a second
`handle` call on the resulting chain with the same input returns the same
boolean. -/
theorem handle_preserves_chain (k : HandlerKind) (next : List HandlerKind)
    (t : String) :
    (Handler.handle k next t).nextOut = next ∧
      (Handler.handle k (Handler.handle k next t).nextOut t).result =
        (Handler.handle k next t).result :=
  ⟨handle_nextOut_eq t next k, by rw [handle_nextOut_eq t next k]⟩
